/-
Verification of the adaptive-learning engine of pavithran-c/learn_to_code.

Shallow embedding of:
  * Backend/skill_analyzer.py      (SkillAnalyzer: gap identification)      — over ℚ
  * Backend/adaptive_engine_enhanced.py (EnhancedAdaptiveEngine difficulty) — over ℝ
  * Backend/adaptive_engine.py     (AdaptiveLearningEngine: IRT/BKT/Elo)    — over ℝ

Modelling conventions, stated once:
  * Python floats are modelled by ℝ (ℚ where a component is purely rational
    arithmetic, so that statements stay decidable); Python ints by ℕ/ℤ.
  * Python dicts keyed by strings are modelled by association lists
    (List (String × α)) with List.lookup; dict insertion appends at the end,
    matching Python's insertion-order semantics.
  * Wall-clock metadata (last_updated, last_calibrated, timestamp fields) and
    human-readable format strings are carried nowhere in a claim and are
    omitted; the evidence dictionaries of the skill analyzer are modelled by
    their 'type' tags.
  * The `except OverflowError` fallback of irt_probability guards float
    overflow of math.exp; over ℝ the exponential is total, so the formula
    branch is the whole function.
  * Database reads (calculate_performance_metrics, assess_user_skills) are
    external inputs: the functions that consume them take the read value as
    an argument.
  * random.randint(0, top_k - 1) is modelled by an explicit argument r : ℕ
    reduced mod top_k, so theorems quantify over every outcome the RNG
    can produce.
-/
import Mathlib

/-! ## SkillAnalyzer (Backend/skill_analyzer.py), over ℚ -/

/-- One entry of SkillAnalyzer._build_concept_hierarchy: 'level', 'concepts',
'prerequisites' (missing 'prerequisites' key read with default [], as by
`category.get('prerequisites', [])`). -/
structure ConceptCategory where
  level : ℕ
  concepts : List String
  prerequisites : List String
deriving DecidableEq

/-- SkillAnalyzer._build_concept_hierarchy, in source order. -/
def conceptHierarchy : List (String × ConceptCategory) :=
  [ ("basics", ⟨1, ["variables", "data_types", "operators", "input_output"], []⟩),
    ("control_flow", ⟨2, ["conditionals", "loops", "boolean_logic"], ["basics"]⟩),
    ("functions", ⟨3, ["function_definition", "parameters", "return_values", "scope"],
      ["basics", "control_flow"]⟩),
    ("data_structures", ⟨4, ["arrays", "lists", "strings", "dictionaries", "sets"],
      ["functions"]⟩),
    ("algorithms", ⟨5, ["sorting", "searching", "recursion", "complexity_analysis"],
      ["data_structures"]⟩),
    ("advanced_structures", ⟨6, ["trees", "graphs", "heaps", "hash_tables"],
      ["algorithms"]⟩),
    ("advanced_algorithms", ⟨7, ["dynamic_programming", "graph_algorithms", "greedy_algorithms"],
      ["advanced_structures"]⟩),
    ("specialized", ⟨8, ["machine_learning", "databases", "web_development", "system_design"],
      ["advanced_algorithms"]⟩) ]

/-- The dependency_rules list of SkillAnalyzer._build_dependency_graph:
(prerequisite, dependent, strength). -/
def dependencyRules : List (String × String × ℚ) :=
  [ ("variables", "arrays", 0.9),
    ("variables", "functions", 0.8),
    ("arrays", "strings", 0.7),
    ("functions", "recursion", 0.9),
    ("arrays", "sorting", 0.8),
    ("recursion", "trees", 0.9),
    ("trees", "graphs", 0.7),
    ("arrays", "dynamic_programming", 0.6),
    ("recursion", "dynamic_programming", 0.8),
    ("loops", "algorithms", 0.7),
    ("conditionals", "algorithms", 0.6),
    ("data_structures", "system_design", 0.8) ]

/-- self.config['mastery_threshold'] of SkillAnalyzer. -/
def analyzerMasteryThreshold : ℚ := 0.7

/-- self.config['gap_severity_threshold'] of SkillAnalyzer. -/
def analyzerGapSeverityThreshold : ℚ := 0.6

/-- SkillLevel dataclass (skill_analyzer.py); last_assessment omitted. -/
structure SkillLevel where
  concept : String
  mastery_score : ℚ
  confidence_interval : ℚ × ℚ
  sample_size : ℕ
  progression_rate : ℚ
  stability_score : ℚ
deriving DecidableEq

/-- SkillGap dataclass (skill_analyzer.py); evidence kept as the list of the
evidence dictionaries' 'type' tags. -/
structure SkillGap where
  concept : String
  gap_severity : ℚ
  current_level : ℚ
  target_level : ℚ
  blocking_dependencies : List String
  prerequisite_gaps : List String
  evidence : List String
  impact_score : ℚ
  difficulty_estimation : ℚ
  time_investment_needed : ℤ
deriving DecidableEq

/-- The level of the first hierarchy category containing the concept, else 1
(the concept_level loop of _calculate_impact_score and
_estimate_learning_difficulty). -/
def conceptLevel (concept : String) : ℕ :=
  match conceptHierarchy.find? (fun q => concept ∈ q.2.concepts) with
  | some q => q.2.level
  | none => 1

/-- SkillAnalyzer._calculate_impact_score. -/
def calculateImpactScore (concept : String) (gapSeverity : ℚ)
    (blockingDependencies : List String) : ℚ :=
  let impact0 := gapSeverity * 0.4
  let impact1 := impact0 + min 0.4 ((blockingDependencies.length : ℚ) * 0.2)
  let impact2 := impact1 + (9 - (conceptLevel concept : ℚ)) / 8 * 0.2
  min 1 impact2

/-- The base_times table of SkillAnalyzer._estimate_time_investment. -/
def baseTimes : List (String × ℕ) :=
  [ ("variables", 2), ("data_types", 3), ("operators", 2), ("input_output", 2),
    ("conditionals", 4), ("loops", 6), ("boolean_logic", 3),
    ("function_definition", 5), ("parameters", 3), ("return_values", 3), ("scope", 4),
    ("arrays", 8), ("lists", 6), ("strings", 5), ("dictionaries", 6), ("sets", 4),
    ("sorting", 10), ("searching", 8), ("recursion", 12), ("complexity_analysis", 8),
    ("trees", 15), ("graphs", 18), ("heaps", 10), ("hash_tables", 8),
    ("dynamic_programming", 20), ("graph_algorithms", 15), ("greedy_algorithms", 12) ]

/-- SkillAnalyzer._estimate_time_investment; Python's int() truncation is ⌊·⌋
(its arguments here are non-negative). -/
def estimateTimeInvestment (concept : String) (gapSeverity difficulty : ℚ) : ℤ :=
  let baseTime : ℚ := ((baseTimes.lookup concept).getD 10 : ℕ)
  ⌊baseTime * (0.5 + gapSeverity * 0.5 + difficulty * 0.5)⌋

/-- SkillAnalyzer._estimate_learning_difficulty. -/
def estimateLearningDifficulty (concept : String) (skill : SkillLevel) : ℚ :=
  let baseDifficulty := (conceptLevel concept : ℚ) / 8
  let skillAdjustment := (1 - skill.mastery_score) * 0.3
  let stabilityAdjustment := (1 - skill.stability_score) * 0.2
  min 1 (baseDifficulty + skillAdjustment + stabilityAdjustment)

/-- SkillAnalyzer._gather_gap_evidence, keeping the 'type' tags. -/
def gatherGapEvidence (skill : SkillLevel) : List String :=
  ["low_mastery"]
    ++ (if skill.sample_size < 5 then ["insufficient_practice"] else [])
    ++ (if skill.progression_rate < -0.1 then ["declining_performance"] else [])
    ++ (if skill.stability_score < 0.5 then ["inconsistent_performance"] else [])

/-- SkillAnalyzer._analyze_skill_gap. Iterating the grouped dependency graph
and keeping the edges whose prerequisite is `concept` visits those edges in
rule order, so the flat filter below builds the same blocking list. -/
def analyzeSkillGap (concept : String) (skill : SkillLevel)
    (allSkills : List (String × SkillLevel)) : SkillGap :=
  let gapSeverity := 1 - skill.mastery_score
  let blocking := (dependencyRules.filter
      (fun q => (allSkills.lookup q.2.1).isSome && q.1 == concept)).map (fun q => q.2.1)
  let prereqGaps := (conceptHierarchy.filter (fun cat => concept ∈ cat.2.concepts)).foldl
    (fun acc cat => acc ++ cat.2.prerequisites.foldl
      (fun acc2 prereqCat => acc2 ++
        (((conceptHierarchy.lookup prereqCat).map ConceptCategory.concepts).getD []).filter
          (fun c => match allSkills.lookup c with
            | some sk => decide (sk.mastery_score < analyzerMasteryThreshold)
            | none => false)) []) []
  let impact := calculateImpactScore concept gapSeverity blocking
  let difficultyEstimation := estimateLearningDifficulty concept skill
  { concept := concept
    gap_severity := gapSeverity
    current_level := skill.mastery_score
    target_level := analyzerMasteryThreshold
    blocking_dependencies := blocking
    prerequisite_gaps := prereqGaps
    evidence := gatherGapEvidence skill
    impact_score := impact
    difficulty_estimation := difficultyEstimation
    time_investment_needed := estimateTimeInvestment concept gapSeverity difficultyEstimation }

/-- SkillAnalyzer._identify_missing_prerequisites: a category some of whose
concepts were attempted reports every never-attempted concept of its
prerequisite categories as a severity-1.0 gap with impact_score 0.8. -/
def identifyMissingPrerequisites (skillLevels : List (String × SkillLevel)) : List SkillGap :=
  conceptHierarchy.foldl (fun acc cat =>
    if cat.2.concepts.any (fun c => (skillLevels.lookup c).isSome) then
      acc ++ cat.2.prerequisites.foldl (fun acc2 prereqCat =>
        acc2 ++ ((((conceptHierarchy.lookup prereqCat).map ConceptCategory.concepts).getD
            []).filter (fun pc => (skillLevels.lookup pc).isNone)).map (fun pc =>
          { concept := pc
            gap_severity := 1
            current_level := 0
            target_level := analyzerMasteryThreshold
            blocking_dependencies := cat.2.concepts
            prerequisite_gaps := []
            evidence := ["missing_prerequisite"]
            impact_score := 0.8
            difficulty_estimation := 0.5
            time_investment_needed := estimateTimeInvestment pc 1 0.5 })) []
    else acc) []

/-- The descending-impact comparison of `gaps.sort(key=..., reverse=True)`. -/
def gapImpactGE (a b : SkillGap) : Bool := decide (b.impact_score ≤ a.impact_score)

/-- SkillAnalyzer.identify_skill_gaps, with the DB-backed
assess_user_skills result supplied as the input association list. -/
def identifySkillGaps (skillLevels : List (String × SkillLevel)) : List SkillGap :=
  if skillLevels.isEmpty then []
  else
    let gaps := skillLevels.foldl (fun acc q =>
      if q.2.mastery_score < analyzerMasteryThreshold then
        if analyzerGapSeverityThreshold ≤ 1 - q.2.mastery_score then
          acc ++ [analyzeSkillGap q.1 q.2 skillLevels]
        else acc
      else acc) []
    let gaps2 := gaps ++ identifyMissingPrerequisites skillLevels
    gaps2.mergeSort gapImpactGE

/-! ## DifficultyController (Backend/adaptive_engine_enhanced.py), over ℝ -/

/-- PerformanceMetrics dataclass. The DB-derived values are inputs here. -/
structure PerformanceMetrics where
  success_rate : ℝ
  average_attempts : ℝ
  time_efficiency : ℝ
  error_rate : ℝ
  learning_velocity : ℝ
  consistency_score : ℝ
  challenge_engagement : ℝ
  frustration_indicators : ℝ

/-- DifficultyState dataclass; performance_buffer is a deque(maxlen=10) kept
most-recent-last; last_updated omitted. -/
structure DifficultyState where
  user_id : String
  current_difficulty : ℝ
  confidence_level : ℝ
  last_adjustments : List ℝ
  performance_buffer : List ℝ
  adaptation_rate : ℝ
  challenge_tolerance : ℝ
  success_target : ℝ

/-- The fresh state built by get_difficulty_state when nothing is saved. -/
def initialDifficultyState (uid : String) : DifficultyState :=
  { user_id := uid
    current_difficulty := 0.3
    confidence_level := 0.5
    last_adjustments := []
    performance_buffer := []
    adaptation_rate := 0.1
    challenge_tolerance := 0.6
    success_target := 0.7 }

/-- EnhancedAdaptiveEngine.config (the fields the embedded code reads). -/
structure ControllerConfig where
  min_samples_for_adaptation : ℕ
  adaptation_sensitivity : ℝ
  max_difficulty_change : ℝ
  success_rate_target : ℝ
  success_rate_tolerance : ℝ
  confidence_threshold : ℝ
  performance_window_size : ℕ
  challenge_boost_threshold : ℝ
  support_boost_threshold : ℝ

def controllerConfig : ControllerConfig :=
  { min_samples_for_adaptation := 5
    adaptation_sensitivity := 0.15
    max_difficulty_change := 0.2
    success_rate_target := 0.7
    success_rate_tolerance := 0.1
    confidence_threshold := 0.6
    performance_window_size := 10
    challenge_boost_threshold := 0.85
    support_boost_threshold := 0.45 }

/-- Append to a deque(maxlen=10): the oldest element falls out beyond 10. -/
def pushBuffer (buffer : List ℝ) (x : ℝ) : List ℝ :=
  let b := buffer ++ [x]
  b.drop (b.length - 10)

/-- Character-list startsWith (helper for the substring tests the source
performs on its reason strings). -/
def charsStart : List Char → List Char → Bool
  | _, [] => true
  | [], _ :: _ => false
  | c :: cs, p :: ps => c == p && charsStart cs ps

/-- Substring test on character lists. -/
def charsHaveSub (l pat : List Char) : Bool :=
  match l with
  | [] => pat.isEmpty
  | _ :: t => charsStart l pat || charsHaveSub t pat

/-- Python's `pat in s` substring test. -/
def strHasSub (s pat : String) : Bool := charsHaveSub s.toList pat.toList

/-- statistics.stdev: sample standard deviation. -/
noncomputable def sampleStdev (l : List ℝ) : ℝ :=
  let mean := l.sum / (l.length : ℝ)
  Real.sqrt (((l.map (fun x => (x - mean) ^ 2)).sum) / ((l.length : ℝ) - 1))

/-- EnhancedAdaptiveEngine._calculate_composite_performance_score. -/
noncomputable def compositePerformanceScore (p : PerformanceMetrics) : ℝ :=
  let score := 0.3 * p.success_rate + 0.15 * p.time_efficiency
    + 0.2 * (p.learning_velocity + 1) / 2 + 0.15 * p.consistency_score
    + 0.1 * p.challenge_engagement + (-0.1) * p.frustration_indicators
  max 0 (min 1 score)

/-- EnhancedAdaptiveEngine.should_adapt_difficulty: (adapt?, reason). -/
noncomputable def shouldAdaptDifficulty (state : DifficultyState)
    (performance : PerformanceMetrics) : Bool × String :=
  if state.performance_buffer.length < controllerConfig.min_samples_for_adaptation then
    (false, "Insufficient data")
  else if |performance.success_rate - state.success_target|
      > controllerConfig.success_rate_tolerance then
    if performance.success_rate
        > state.success_target + controllerConfig.success_rate_tolerance then
      (true, "Success rate too high - increase difficulty")
    else
      (true, "Success rate too low - decrease difficulty")
  else if performance.frustration_indicators > 0.7 then
    (true, "High frustration detected - decrease difficulty")
  else if performance.success_rate > 0.85 ∧ performance.challenge_engagement < 0.5
      ∧ performance.average_attempts < 1.5 then
    (true, "Under-challenged - increase difficulty")
  else if performance.learning_velocity < -0.2 then
    (true, "Negative learning velocity - decrease difficulty")
  else
    (false, "No adaptation needed")

/-- EnhancedAdaptiveEngine.calculate_difficulty_adjustment: the delta that,
added to current_difficulty, lands on the [0.05, 0.95]-clipped new value. -/
noncomputable def calculateDifficultyAdjustment (state : DifficultyState)
    (performance : PerformanceMetrics) (reason : String) : ℝ :=
  let baseAdjustment : ℝ :=
    if strHasSub reason.toLower "increase difficulty" then
      let successExcess := performance.success_rate - state.success_target
      let b := min (successExcess * 0.5) controllerConfig.max_difficulty_change
      if performance.challenge_engagement > 0.7 ∧ performance.consistency_score > 0.7 then
        b * 1.2
      else b
    else if strHasSub reason.toLower "decrease difficulty" then
      if strHasSub reason.toLower "frustration" then
        -(min 0.15 (performance.frustration_indicators * 0.2))
      else
        let successDeficit := state.success_target - performance.success_rate;
        -(min (successDeficit * 0.7) controllerConfig.max_difficulty_change)
    else 0
  let scaled := baseAdjustment * state.adaptation_rate
  let modified := scaled * (0.5 + state.confidence_level * 0.5)
  let newDifficulty := max 0.05 (min 0.95 (state.current_difficulty + modified))
  newDifficulty - state.current_difficulty

/-- The caller-visible part of the adaptation result dict. -/
structure AdaptationOutcome where
  adaptation_performed : Bool
  old_difficulty : ℝ
  new_difficulty : ℝ
  reason : String

/-- EnhancedAdaptiveEngine.adapt_difficulty, with the DB-computed
PerformanceMetrics supplied as input; returns the updated DifficultyState and
the outcome record. -/
noncomputable def adaptDifficulty (state : DifficultyState)
    (performance : PerformanceMetrics) : DifficultyState × AdaptationOutcome :=
  let st1 := { state with
    performance_buffer := pushBuffer state.performance_buffer
      (compositePerformanceScore performance) }
  let sa := shouldAdaptDifficulty st1 performance
  if sa.1 then
    let adjustment := calculateDifficultyAdjustment st1 performance sa.2
    let d1 := max 0.05 (min 0.95 (st1.current_difficulty + adjustment))
    let adjs0 := st1.last_adjustments ++ [adjustment]
    let adjs := if 5 < adjs0.length then adjs0.drop (adjs0.length - 5) else adjs0
    let conf :=
      if 3 ≤ adjs.length then
        min 1 (st1.confidence_level
          + (1 - sampleStdev ((adjs.drop (adjs.length - 3)).map (fun a => |a|))) * 0.1)
      else st1.confidence_level
    let rate :=
      if 0 < performance.learning_velocity then min 0.2 (st1.adaptation_rate * 1.05)
      else max 0.05 (st1.adaptation_rate * 0.95)
    let st2 := { st1 with
      current_difficulty := d1
      last_adjustments := adjs
      confidence_level := conf
      adaptation_rate := rate }
    (st2, ⟨true, st1.current_difficulty, d1, sa.2⟩)
  else
    (st1, ⟨false, st1.current_difficulty, st1.current_difficulty, sa.2⟩)

/-! ## AdaptiveLearningEngine (Backend/adaptive_engine.py), over ℝ -/

/-- UserSkill dataclass; last_updated omitted. -/
structure UserSkill where
  user_id : String
  theta : ℝ
  theta_se : ℝ
  elo_rating : ℝ
  concept_mastery : List (String × ℝ)
  total_attempts : ℕ
  correct_attempts : ℕ

/-- ItemParameters dataclass; last_calibrated omitted. -/
structure ItemParameters where
  item_id : String
  difficulty : ℝ
  discrimination : ℝ
  elo_rating : ℝ
  concepts : List String
  exposure_count : ℕ

/-- AttemptRecord dataclass; timestamp and code_quality_signals omitted. -/
structure AttemptRecord where
  user_id : String
  item_id : String
  score : ℝ
  binary_score : ℕ
  time_taken : ℕ
  hints_used : ℕ

/-- The engine's global BKT parameter dict. -/
structure BktParams where
  learn : ℝ
  slip : ℝ
  guess : ℝ
  forget : ℝ

/-- AdaptiveLearningEngine.__init__ BKT defaults. -/
def defaultBktParams : BktParams := ⟨0.3, 0.1, 0.25, 0.05⟩

/-- The mutable engine fields of AdaptiveLearningEngine. -/
structure EngineState where
  user_skills : List (String × UserSkill)
  item_params : List (String × ItemParameters)
  attempt_history : List AttemptRecord
  bkt_params : BktParams
  elo_k : ℝ

/-- AdaptiveLearningEngine() as constructed by __init__. -/
def initialEngine : EngineState := ⟨[], [], [], defaultBktParams, 32⟩

/-- UserSkill(user_id=uid) with its dataclass defaults. -/
def defaultUser (uid : String) : UserSkill := ⟨uid, 0, 1, 1500, [], 0, 0⟩

/-- ItemParameters(item_id=iid, concepts=concepts) with its defaults. -/
def defaultItem (iid : String) (concepts : List String) : ItemParameters :=
  ⟨iid, 0, 1, 1500, concepts, 0⟩

/-- Replace the value stored under an existing key (dict mutation of an entry
the engine has already ensured present). -/
def setAssoc {α : Type} (l : List (String × α)) (k : String) (v : α) : List (String × α) :=
  l.map (fun q => if q.1 = k then (k, v) else q)

/-- AdaptiveLearningEngine.get_or_create_user. -/
def getOrCreateUser (s : EngineState) (uid : String) : EngineState × UserSkill :=
  match s.user_skills.lookup uid with
  | some u => (s, u)
  | none =>
    ({ s with user_skills := s.user_skills ++ [(uid, defaultUser uid)] }, defaultUser uid)

/-- AdaptiveLearningEngine.get_or_create_item (`concepts or []` applied by the
caller: both engine call sites pass no concepts, hence []). -/
def getOrCreateItem (s : EngineState) (iid : String) (concepts : List String) :
    EngineState × ItemParameters :=
  match s.item_params.lookup iid with
  | some it => (s, it)
  | none =>
    ({ s with item_params := s.item_params ++ [(iid, defaultItem iid concepts)] },
      defaultItem iid concepts)

def ensureUser (s : EngineState) (uid : String) : EngineState := (getOrCreateUser s uid).1

def ensureItem (s : EngineState) (iid : String) (concepts : List String) : EngineState :=
  (getOrCreateItem s iid concepts).1

/-- The user record under uid, defaulting as get_or_create_user would create it. -/
def userD (s : EngineState) (uid : String) : UserSkill :=
  (s.user_skills.lookup uid).getD (defaultUser uid)

/-- The item record under iid, defaulting as get_or_create_item would create it. -/
def itemD (s : EngineState) (iid : String) : ItemParameters :=
  (s.item_params.lookup iid).getD (defaultItem iid [])

/-- AdaptiveLearningEngine.irt_probability: 2PL model. The OverflowError
handler caps float overflow of math.exp and has no counterpart over ℝ. -/
noncomputable def irtProbability (theta difficulty discrimination : ℝ) : ℝ :=
  1 / (1 + Real.exp (-discrimination * (theta - difficulty)))

/-- AdaptiveLearningEngine.item_information. -/
noncomputable def itemInformation (theta difficulty discrimination : ℝ) : ℝ :=
  discrimination ^ 2 * irtProbability theta difficulty discrimination
    * (1 - irtProbability theta difficulty discrimination)

/-- np.linspace(-4, 4, 81): the EAP quadrature grid. -/
noncomputable def thetaGrid : List ℝ := (List.range 81).map (fun i => -4 + (i : ℝ) * (1 / 10))

/-- The standard normal prior density used by update_theta_eap. -/
noncomputable def stdNormalPrior (t : ℝ) : ℝ :=
  Real.exp (-(0.5) * t ^ 2) / Real.sqrt (2 * Real.pi)

/-- The response likelihood at ability t: product over (discrimination,
difficulty, binary_score) triples of P if the response was correct (nonzero
binary_score, as np.where reads it) else 1 - P. -/
noncomputable def eapLikelihood (responses : List (ℝ × ℝ × ℕ)) (t : ℝ) : ℝ :=
  responses.foldl (fun acc q =>
    acc * (if q.2.2 ≠ 0 then 1 / (1 + Real.exp (-q.1 * (t - q.2.1)))
           else 1 - 1 / (1 + Real.exp (-q.1 * (t - q.2.1))))) 1

/-- AdaptiveLearningEngine.update_theta_eap: grid-quadrature EAP estimate and
posterior standard deviation. -/
noncomputable def updateThetaEap (u : UserSkill) (responses : List (ℝ × ℝ × ℕ)) : UserSkill :=
  let rawPosterior := thetaGrid.map (fun t => eapLikelihood responses t * stdNormalPrior t)
  let z := rawPosterior.sum
  let posterior := rawPosterior.map (fun x => x / z)
  let theta := ((thetaGrid.zip posterior).map (fun q => q.1 * q.2)).sum
  let se := Real.sqrt (((thetaGrid.zip posterior).map (fun q => (q.1 - theta) ^ 2 * q.2)).sum)
  { u with theta := theta, theta_se := se }

/-- AdaptiveLearningEngine.update_elo_ratings: co-evolving Elo update with
clamping to [800, 2400]. -/
noncomputable def updateEloRatings (k : ℝ) (u : UserSkill) (it : ItemParameters)
    (score : ℝ) : UserSkill × ItemParameters :=
  let expectedUser := 1 / (1 + (10 : ℝ) ^ ((it.elo_rating - u.elo_rating) / 400))
  let expectedItem := 1 - expectedUser
  let userElo := u.elo_rating + k * (score - expectedUser)
  let itemElo := it.elo_rating + k * (expectedItem - score)
  ({ u with elo_rating := max 800 (min 2400 userElo) },
   { it with elo_rating := max 800 (min 2400 itemElo) })

/-- dict write user.concept_mastery[concept] = v: replace if present, else
append (Python dict assignment). -/
def setMastery (m : List (String × ℝ)) (c : String) (v : ℝ) : List (String × ℝ) :=
  if (m.lookup c).isSome then setAssoc m c v else m ++ [(c, v)]

/-- The per-concept BKT update of update_bkt_mastery: posterior, learning
transition, forgetting, clip to [0.01, 0.99]. -/
noncomputable def bktUpdate (p : BktParams) (mastery : ℝ) (correct : Bool) : ℝ :=
  let posterior :=
    if correct then
      let pCorrect := mastery * (1 - p.slip) + (1 - mastery) * p.guess
      mastery * (1 - p.slip) / pCorrect
    else
      let pIncorrect := mastery * p.slip + (1 - mastery) * (1 - p.guess)
      mastery * p.slip / pIncorrect
  let newMastery := posterior + (1 - posterior) * p.learn
  let newMastery2 := newMastery * (1 - p.forget)
  max 0.01 (min 0.99 newMastery2)

/-- AdaptiveLearningEngine.update_bkt_mastery: fold the per-concept update
over the item's concepts (prior 0.2 for an unseen concept). -/
noncomputable def updateBktMastery (p : BktParams) (u : UserSkill) (concepts : List String)
    (correct : Bool) : UserSkill :=
  let newMap := concepts.foldl
    (fun m c => setMastery m c (bktUpdate p ((List.lookup c m).getD 0.2) correct))
    u.concept_mastery
  { u with concept_mastery := newMap }

/-- The exposure rate select_next_item computes for a scored item:
exposure_count / max(1, len(attempt_history)). Integer counts make it
rational, hence decidable. -/
def exposureRate (s : EngineState) (iid : String) : ℚ :=
  ((itemD s iid).exposure_count : ℚ) / ((max 1 s.attempt_history.length : ℕ) : ℚ)

/-- The concept bonus loop of select_next_item: +0.1·(0.7 − mastery) per
attached concept with mastery (default 0.5) below 0.7. -/
noncomputable def conceptBonus (u : UserSkill) (concepts : List String) : ℝ :=
  concepts.foldl (fun acc c =>
    let m := (u.concept_mastery.lookup c).getD 0.5
    if m < 0.7 then acc + 0.1 * (0.7 - m) else acc) 0

/-- Descending order on (score, item_id) pairs: Python's
item_scores.sort(reverse=True) on tuples. -/
noncomputable def scorePairGE (a b : ℝ × String) : Bool :=
  decide (b.1 < a.1 ∨ (a.1 = b.1 ∧ b.2 ≤ a.2))

/-- The scoring loop of select_next_item: skip an exposed item whose
exposure rate exceeds max_exposure, else score it by item information plus
concept bonus. -/
noncomputable def selectItemScores (s2 : EngineState) (user : UserSkill)
    (availableItems : List String) (maxExposure : ℚ) : List (ℝ × String) :=
  availableItems.filterMap (fun iid =>
    let item := itemD s2 iid
    if 0 < item.exposure_count ∧ exposureRate s2 iid > maxExposure then none
    else
      some (itemInformation user.theta item.difficulty item.discrimination
              + conceptBonus user item.concepts, iid))

/-- The state after select_next_item's get_or_create_item loop over the
candidate list. -/
def ensureItemsFold (s : EngineState) (availableItems : List String) : EngineState :=
  availableItems.foldl (fun st iid => ensureItem st iid []) s

/-- AdaptiveLearningEngine.select_next_item. The state result carries the
get_or_create side effects; r models the random.randint outcome. -/
noncomputable def selectNextItem (s : EngineState) (uid : String)
    (availableItems : List String) (maxExposure : ℚ) (r : ℕ) :
    EngineState × Option String :=
  let s1 := ensureUser s uid
  if availableItems.isEmpty then (s1, none)
  else
    let s2 := ensureItemsFold s1 availableItems
    let itemScores := selectItemScores s2 (userD s2 uid) availableItems maxExposure
    if itemScores.isEmpty then (s2, availableItems.head?)
    else
      let sorted := itemScores.mergeSort scorePairGE
      let topK := min 3 itemScores.length
      (s2, (sorted[r % topK]?).map (fun q => q.2))

/-- The (discrimination, difficulty, binary_score) triples fed to EAP: all of
the user's attempts in the stored history, most recent 10. -/
def recentResponses (s : EngineState) (hist : List AttemptRecord) (uid : String) :
    List (ℝ × ℝ × ℕ) :=
  let all := (hist.filter (fun a => a.user_id == uid)).map (fun a =>
    let it := itemD s a.item_id
    (it.discrimination, it.difficulty, a.binary_score))
  all.drop (all.length - 10)

/-- The snapshot dict process_attempt returns. -/
structure AttemptOutcome where
  user_theta : ℝ
  user_theta_se : ℝ
  user_elo : ℝ
  concept_mastery : List (String × ℝ)
  stop_testing : Prop
  accuracy : ℝ

/-- AdaptiveLearningEngine.process_attempt: append to history, update
counters, re-estimate ability when ≥3 recent responses exist, update Elo,
update BKT mastery, increment item exposure, and return the snapshot. -/
noncomputable def processAttempt (s : EngineState) (att : AttemptRecord) :
    EngineState × AttemptOutcome :=
  let s2 := ensureItem (ensureUser s att.user_id) att.item_id []
  let user0 := userD s2 att.user_id
  let item0 := itemD s2 att.item_id
  let hist := s2.attempt_history ++ [att]
  let user1 := { user0 with
    total_attempts := user0.total_attempts + 1
    correct_attempts := user0.correct_attempts + (if att.binary_score ≠ 0 then 1 else 0) }
  let responses := recentResponses s2 hist att.user_id
  let user2 := if 3 ≤ responses.length then updateThetaEap user1 responses else user1
  let eloPair := updateEloRatings s2.elo_k user2 item0 att.score
  let user3 := eloPair.1
  let item1 := eloPair.2
  let user4 := updateBktMastery s2.bkt_params user3 item0.concepts (att.binary_score == 1)
  let item2 := { item1 with exposure_count := item1.exposure_count + 1 }
  let s3 := { s2 with
    user_skills := setAssoc s2.user_skills att.user_id user4
    item_params := setAssoc s2.item_params att.item_id item2
    attempt_history := hist }
  (s3,
    { user_theta := user4.theta
      user_theta_se := user4.theta_se
      user_elo := user4.elo_rating
      concept_mastery := user4.concept_mastery
      stop_testing := user4.theta_se < 0.3 ∨ 20 ≤ user4.total_attempts
      accuracy := if 0 < user4.total_attempts then
        (user4.correct_attempts : ℝ) / (user4.total_attempts : ℝ) else 0 })

/-- The snapshot save_state serializes: the five engine fields, as asdict
renders them (the file and JSON text layers are outside the embedding). -/
structure SavedState where
  user_skills : List (String × UserSkill)
  item_params : List (String × ItemParameters)
  attempt_history : List AttemptRecord
  bkt_params : BktParams
  elo_k : ℝ

/-- AdaptiveLearningEngine.save_state: the serialized snapshot. -/
def saveState (s : EngineState) : SavedState :=
  ⟨s.user_skills, s.item_params, s.attempt_history, s.bkt_params, s.elo_k⟩

/-- AdaptiveLearningEngine.load_state on an intact snapshot: reconstruct
every engine field from the saved record. -/
def loadState (st : SavedState) : EngineState :=
  ⟨st.user_skills, st.item_params, st.attempt_history, st.bkt_params, st.elo_k⟩

/-! ## Association-list and ensure lemmas -/

theorem lookup_append {α : Type} (l r : List (String × α)) (k : String) :
    List.lookup k (l ++ r) = (List.lookup k l).or (List.lookup k r) := by
  induction l with
  | nil => simp
  | cons p t ih =>
    cases p with
    | mk k2 v =>
      by_cases h : k = k2
      · subst h
        simp [List.lookup_cons]
      · simp only [List.cons_append, List.lookup_cons]
        have hb : (k == k2) = false := by simp [h]
        simp [hb, ih]

theorem lookup_setAssoc_self {α : Type} (l : List (String × α)) (k : String) (v : α)
    (h : (List.lookup k l).isSome) : List.lookup k (setAssoc l k v) = some v := by
  induction l with
  | nil => simp at h
  | cons p t ih =>
    cases p with
    | mk k2 w =>
      by_cases hk : k = k2
      · subst hk
        simp [setAssoc, List.lookup_cons]
      · have hb : (k == k2) = false := by simp [hk]
        simp only [List.lookup_cons, hb] at h
        simp only [setAssoc, List.map_cons, if_neg (Ne.symm hk)]
        simp only [List.lookup_cons, hb]
        exact ih h

theorem ensureUser_user_skills_lookup (s : EngineState) (uid : String) :
    List.lookup uid (ensureUser s uid).user_skills = some (userD s uid) := by
  unfold ensureUser getOrCreateUser userD
  cases h : List.lookup uid s.user_skills with
  | some u => simp [h]
  | none => simp [lookup_append, h, List.lookup_cons]

theorem ensureUser_fields (s : EngineState) (uid : String) :
    (ensureUser s uid).item_params = s.item_params
      ∧ (ensureUser s uid).attempt_history = s.attempt_history
      ∧ (ensureUser s uid).bkt_params = s.bkt_params
      ∧ (ensureUser s uid).elo_k = s.elo_k := by
  unfold ensureUser getOrCreateUser
  cases h : List.lookup uid s.user_skills <;> simp [h]

theorem userD_ensureUser (s : EngineState) (uid : String) :
    userD (ensureUser s uid) uid = userD s uid := by
  unfold userD
  rw [ensureUser_user_skills_lookup]
  rfl

theorem ensureItem_user_skills (s : EngineState) (iid : String) (cs : List String) :
    (ensureItem s iid cs).user_skills = s.user_skills
      ∧ (ensureItem s iid cs).attempt_history = s.attempt_history
      ∧ (ensureItem s iid cs).bkt_params = s.bkt_params
      ∧ (ensureItem s iid cs).elo_k = s.elo_k := by
  unfold ensureItem getOrCreateItem
  cases h : List.lookup iid s.item_params <;> simp [h]

theorem ensureItem_item_lookup (s : EngineState) (iid : String) :
    List.lookup iid (ensureItem s iid []).item_params = some (itemD s iid) := by
  unfold ensureItem getOrCreateItem itemD
  cases h : List.lookup iid s.item_params with
  | some it => simp [h]
  | none => simp [lookup_append, h, List.lookup_cons]

theorem itemD_ensureItem (s : EngineState) (iid j : String) :
    itemD (ensureItem s iid []) j = itemD s j := by
  by_cases hj : j = iid
  · subst hj
    unfold itemD
    rw [ensureItem_item_lookup]
    rfl
  · unfold ensureItem getOrCreateItem itemD
    cases h : List.lookup iid s.item_params with
    | some it => simp [h]
    | none =>
      have hb : (j == iid) = false := by simp [hj]
      simp only [lookup_append, h, List.lookup_cons, hb]
      cases List.lookup j s.item_params <;> simp [Option.or]

theorem userD_ensureItem (s : EngineState) (iid j : String) (cs : List String) :
    userD (ensureItem s iid cs) j = userD s j := by
  unfold userD
  rw [(ensureItem_user_skills s iid cs).1]

theorem itemD_ensureUser (s : EngineState) (uid j : String) :
    itemD (ensureUser s uid) j = itemD s j := by
  unfold itemD
  rw [(ensureUser_fields s uid).1]

/-! ## Theorems for the frozen claims -/

/-- C9: serializing the full engine state with save_state and loading it with
load_state reconstructs the same engine state, so every subsequent
computation (process_attempt on the same record, select_next_item on the
same request) gives results identical to the original engine's. -/
theorem c9_save_load_round_trip (e : EngineState) (att : AttemptRecord) (uid : String)
    (cands : List String) (mx : ℚ) (r : ℕ) :
    loadState (saveState e) = e
      ∧ processAttempt (loadState (saveState e)) att = processAttempt e att
      ∧ selectNextItem (loadState (saveState e)) uid cands mx r
          = selectNextItem e uid cands mx r := by
  have h : loadState (saveState e) = e := by
    cases e
    rfl
  exact ⟨h, by rw [h], by rw [h]⟩

/-- C10: get_or_create is idempotent and never overwrites: for a user id or
item id already stored, get_or_create_user / get_or_create_item return the
stored record and leave the engine state unchanged, whatever concepts list
is passed for an existing item. -/
theorem c10_get_or_create_idempotent (s : EngineState) (uid iid : String)
    (cs : List String) :
    ((List.lookup uid s.user_skills).isSome →
        getOrCreateUser s uid = (s, userD s uid))
      ∧ ((List.lookup iid s.item_params).isSome →
        getOrCreateItem s iid cs = (s, itemD s iid)) := by
  constructor
  · intro h
    unfold getOrCreateUser userD
    cases hu : List.lookup uid s.user_skills with
    | some u => simp
    | none => rw [hu] at h; simp at h
  · intro h
    unfold getOrCreateItem itemD
    cases hi : List.lookup iid s.item_params with
    | some it => simp
    | none => rw [hi] at h; simp at h

theorem itemD_ensureItemsFold (availableItems : List String) (s : EngineState) (j : String) :
    itemD (ensureItemsFold s availableItems) j = itemD s j := by
  induction availableItems generalizing s with
  | nil => rfl
  | cons iid t ih =>
    unfold ensureItemsFold at ih ⊢
    simp only [List.foldl_cons]
    rw [ih, itemD_ensureItem]

theorem userD_ensureItemsFold (availableItems : List String) (s : EngineState) (j : String) :
    userD (ensureItemsFold s availableItems) j = userD s j := by
  induction availableItems generalizing s with
  | nil => rfl
  | cons iid t ih =>
    unfold ensureItemsFold at ih ⊢
    simp only [List.foldl_cons]
    rw [ih, userD_ensureItem]

theorem attempt_history_ensureItemsFold (availableItems : List String) (s : EngineState) :
    (ensureItemsFold s availableItems).attempt_history = s.attempt_history := by
  induction availableItems generalizing s with
  | nil => rfl
  | cons iid t ih =>
    unfold ensureItemsFold at ih ⊢
    simp only [List.foldl_cons]
    rw [ih, (ensureItem_user_skills s iid []).2.1]

theorem exposureRate_ensureItemsFold (availableItems : List String) (s : EngineState)
    (j : String) :
    exposureRate (ensureItemsFold s availableItems) j = exposureRate s j := by
  unfold exposureRate
  rw [itemD_ensureItemsFold, attempt_history_ensureItemsFold]

theorem exposureRate_ensureUser (s : EngineState) (uid j : String) :
    exposureRate (ensureUser s uid) j = exposureRate s j := by
  unfold exposureRate
  rw [itemD_ensureUser, (ensureUser_fields s uid).2.1]

/-- Elo clamping keeps both ratings in [800, 2400]. -/
theorem updateEloRatings_bounds (k : ℝ) (u : UserSkill) (it : ItemParameters) (sc : ℝ) :
    800 ≤ ((updateEloRatings k u it sc).1).elo_rating
      ∧ ((updateEloRatings k u it sc).1).elo_rating ≤ 2400 := by
  unfold updateEloRatings
  refine ⟨le_max_left _ _, max_le (by norm_num) (min_le_left _ _)⟩

theorem updateEloRatings_user_fields (k : ℝ) (u : UserSkill) (it : ItemParameters) (sc : ℝ) :
    ((updateEloRatings k u it sc).1).theta = u.theta
      ∧ ((updateEloRatings k u it sc).1).theta_se = u.theta_se
      ∧ ((updateEloRatings k u it sc).1).concept_mastery = u.concept_mastery := by
  exact ⟨rfl, rfl, rfl⟩

theorem updateEloRatings_item_fields (k : ℝ) (u : UserSkill) (it : ItemParameters) (sc : ℝ) :
    ((updateEloRatings k u it sc).2).exposure_count = it.exposure_count
      ∧ ((updateEloRatings k u it sc).2).concepts = it.concepts := by
  exact ⟨rfl, rfl⟩

theorem updateThetaEap_fields (u : UserSkill) (responses : List (ℝ × ℝ × ℕ)) :
    (updateThetaEap u responses).concept_mastery = u.concept_mastery
      ∧ (updateThetaEap u responses).elo_rating = u.elo_rating := by
  exact ⟨rfl, rfl⟩

theorem updateBktMastery_fields (p : BktParams) (u : UserSkill) (concepts : List String)
    (correct : Bool) :
    (updateBktMastery p u concepts correct).theta = u.theta
      ∧ (updateBktMastery p u concepts correct).theta_se = u.theta_se
      ∧ (updateBktMastery p u concepts correct).elo_rating = u.elo_rating := by
  exact ⟨rfl, rfl, rfl⟩

/-- C2: the BKT update is a function of its inputs, and on the worked
example — default parameters slip 0.1, guess 0.25, learn 0.3, forget 0.05,
prior mastery 0.2, correct response — update_bkt_mastery stores a mastery
within 1e-3 of 0.6 for the concept (the exact value is 0.6). -/
theorem c2_bkt_worked_example :
    |(List.lookup "c" ((updateBktMastery defaultBktParams (defaultUser "u") ["c"]
        true).concept_mastery)).getD 0 - 0.6| ≤ 1 / 1000 := by
  unfold updateBktMastery defaultUser
  simp only [List.foldl, List.lookup_nil, Option.getD_none, setMastery,
    Option.isSome_none, Bool.false_eq_true, if_false, List.nil_append, List.lookup_cons]
  simp only [beq_self_eq_true]
  unfold bktUpdate defaultBktParams
  norm_num [min_def, max_def]

/-! ## Lemmas about process_attempt and select_next_item -/

theorem processAttempt_exposure (s : EngineState) (att : AttemptRecord) :
    (itemD (processAttempt s att).1 att.item_id).exposure_count
      = (itemD s att.item_id).exposure_count + 1 := by
  unfold processAttempt
  simp only
  set s1 := ensureUser s att.user_id with hs1
  set s2 := ensureItem s1 att.item_id [] with hs2
  have hlook : List.lookup att.item_id s2.item_params = some (itemD s1 att.item_id) :=
    ensureItem_item_lookup s1 att.item_id
  have hsome : (List.lookup att.item_id s2.item_params).isSome := by rw [hlook]; rfl
  unfold itemD
  simp only [lookup_setAssoc_self _ _ _ hsome, Option.getD_some]
  have h2 : (itemD s1 att.item_id).exposure_count = (itemD s att.item_id).exposure_count := by
    rw [hs1, itemD_ensureUser]
  rw [(updateEloRatings_item_fields _ _ _ _).1, hlook, Option.getD_some, h2]
  rfl

theorem mem_selectItemScores (s2 : EngineState) (user : UserSkill) (avail : List String)
    (mx : ℚ) (q : ℝ × String) (h : q ∈ selectItemScores s2 user avail mx) :
    q.2 ∈ avail := by
  unfold selectItemScores at h
  rw [List.mem_filterMap] at h
  obtain ⟨a, ha, hfa⟩ := h
  simp only at hfa
  split at hfa
  · exact absurd hfa (by simp)
  · cases hfa
    exact ha

theorem selectItemScores_not_skipped (s2 : EngineState) (user : UserSkill)
    (avail : List String) (mx : ℚ) (bad : String)
    (hskip : 0 < (itemD s2 bad).exposure_count ∧ exposureRate s2 bad > mx) :
    ∀ q ∈ selectItemScores s2 user avail mx, q.2 ≠ bad := by
  intro q hq
  unfold selectItemScores at hq
  rw [List.mem_filterMap] at hq
  obtain ⟨a, ha, hfa⟩ := hq
  simp only at hfa
  split at hfa
  · exact absurd hfa (by simp)
  · rename_i hcond
    cases hfa
    intro hqa
    simp only at hqa
    subst hqa
    exact hcond hskip

theorem selectItemScores_has_good (s2 : EngineState) (user : UserSkill)
    (avail : List String) (mx : ℚ) (g : String) (hg : g ∈ avail)
    (hrate : ¬ exposureRate s2 g > mx) :
    selectItemScores s2 user avail mx ≠ [] := by
  intro hempty
  have hmem : (itemInformation user.theta (itemD s2 g).difficulty (itemD s2 g).discrimination
      + conceptBonus user (itemD s2 g).concepts, g) ∈ selectItemScores s2 user avail mx := by
    unfold selectItemScores
    rw [List.mem_filterMap]
    refine ⟨g, hg, ?_⟩
    simp only
    rw [if_neg]
    intro hc
    exact hrate hc.2
  rw [hempty] at hmem
  exact absurd hmem (List.not_mem_nil _)

theorem selectNextItem_mem (s : EngineState) (uid : String) (cands : List String)
    (mx : ℚ) (r : ℕ) (iid : String)
    (h : (selectNextItem s uid cands mx r).2 = some iid) : iid ∈ cands := by
  unfold selectNextItem at h
  by_cases he : cands.isEmpty
  · rw [if_pos he] at h
    exact absurd h (by simp)
  · rw [if_neg he] at h
    simp only at h
    split at h
    · simp only at h
      exact List.mem_of_mem_head? h
    · simp only at h
      rw [Option.map_eq_some'] at h
      obtain ⟨q, hq, hq2⟩ := h
      have hmem : q ∈ (selectItemScores (ensureItemsFold (ensureUser s uid) cands)
          (userD (ensureItemsFold (ensureUser s uid) cands) uid) cands mx).mergeSort
            scorePairGE := by
        obtain ⟨hlt, hget⟩ := List.getElem?_eq_some_iff.mp hq
        rw [← hget]
        exact List.getElem_mem hlt
      rw [List.mem_mergeSort] at hmem
      have := mem_selectItemScores _ _ _ _ _ hmem
      rw [hq2] at this
      exact this

theorem itemD_selectNextItem (s : EngineState) (uid : String) (cands : List String)
    (mx : ℚ) (r : ℕ) (j : String) :
    itemD (selectNextItem s uid cands mx r).1 j = itemD s j := by
  unfold selectNextItem
  by_cases he : cands.isEmpty
  · rw [if_pos he]
    exact itemD_ensureUser s uid j
  · rw [if_neg he]
    simp only
    split
    · show itemD (ensureItemsFold (ensureUser s uid) cands) j = itemD s j
      rw [itemD_ensureItemsFold, itemD_ensureUser]
    · show itemD (ensureItemsFold (ensureUser s uid) cands) j = itemD s j
      rw [itemD_ensureItemsFold, itemD_ensureUser]

/-! ## Concrete example data for counterexamples and witnesses -/

/-- A first attempt: user u1, item i1, score 0.8, correct, 45 seconds. -/
def attEx : AttemptRecord := ⟨"u1", "i1", 0.8, 1, 45, 0⟩

/-- An item that has been exposed five times. -/
def itemEx5 : ItemParameters := ⟨"i1", 0, 1, 1500, [], 5⟩

/-- An engine holding one user, the five-times-exposed item, no history. -/
def s5Ex : EngineState :=
  ⟨[("u1", defaultUser "u1")], [("i1", itemEx5)], [], defaultBktParams, 32⟩

theorem s5Ex_itemD : itemD s5Ex "i1" = itemEx5 := by
  unfold itemD s5Ex
  simp [List.lookup_cons]

theorem s5Ex_scores_empty (user : UserSkill) :
    selectItemScores (ensureItemsFold (ensureUser s5Ex "u1") ["i1"]) user ["i1"] (3/10)
      = [] := by
  unfold selectItemScores
  have hitem : itemD (ensureItemsFold (ensureUser s5Ex "u1") ["i1"]) "i1" = itemEx5 := by
    rw [itemD_ensureItemsFold, itemD_ensureUser, s5Ex_itemD]
  have hrate : exposureRate (ensureItemsFold (ensureUser s5Ex "u1") ["i1"]) "i1" = 5 := by
    rw [exposureRate_ensureItemsFold, exposureRate_ensureUser]
    unfold exposureRate
    rw [s5Ex_itemD]
    norm_num [s5Ex, itemEx5]
  simp only [List.filterMap_cons, List.filterMap_nil]
  rw [if_pos]
  constructor
  · rw [hitem]
    norm_num [itemEx5]
  · rw [hrate]
    norm_num

/-- C5 counterexample: process_attempt *does* change the attempted item's
exposure_count (0 becomes 1 on the first recorded attempt), and
select_next_item returns item i1 while leaving its exposure_count at 5. -/
theorem c5_counterexample :
    (itemD (processAttempt initialEngine attEx).1 "i1").exposure_count = 1
      ∧ (itemD initialEngine "i1").exposure_count = 0
      ∧ (selectNextItem s5Ex "u1" ["i1"] (3/10) 0).2 = some "i1"
      ∧ (itemD (selectNextItem s5Ex "u1" ["i1"] (3/10) 0).1 "i1").exposure_count = 5 := by
  refine ⟨by rfl, by rfl, ?_, ?_⟩
  · unfold selectNextItem
    rw [if_neg (by decide)]
    simp only
    rw [s5Ex_scores_empty]
    simp
  · rw [itemD_selectNextItem, s5Ex_itemD]
    rfl

/-- C5 amended: exposure_count is incremented by process_attempt — each call
adds one to the attempted item's count — while select_next_item never
modifies any item's exposure_count (its only state effect is lazy
get-or-create). -/
theorem c5_amended_exposure_accounting (s : EngineState) (att : AttemptRecord)
    (s2 : EngineState) (uid : String) (cands : List String) (mx : ℚ) (r : ℕ)
    (j : String) :
    (itemD (processAttempt s att).1 att.item_id).exposure_count
        = (itemD s att.item_id).exposure_count + 1
      ∧ (itemD (selectNextItem s2 uid cands mx r).1 j).exposure_count
        = (itemD s2 j).exposure_count := by
  constructor
  · exact processAttempt_exposure s att
  · rw [itemD_selectNextItem]

/-- C8: select_next_item answers an empty candidate list with the explicit
"no selection" value none (no exception paths exist in the embedding), and
any non-none item id it returns is a member of the supplied candidate
list. -/
theorem c8_select_empty_and_membership (s : EngineState) (uid : String) (mx : ℚ)
    (r : ℕ) (cands : List String) (iid : String) :
    (selectNextItem s uid [] mx r).2 = none
      ∧ ((selectNextItem s uid cands mx r).2 = some iid → iid ∈ cands) :=
  ⟨rfl, fun h => selectNextItem_mem s uid cands mx r iid h⟩

/-- C4: when one candidate's exposure rate exceeds max_exposure (a
non-negative threshold) and some candidate's rate does not, the over-exposed
candidate is never the selection, whatever value the RNG takes. -/
theorem c4_overexposed_never_selected (s : EngineState) (uid bad : String)
    (cands : List String) (mx : ℚ) (r : ℕ)
    (hmx : 0 ≤ mx) (hmem : bad ∈ cands)
    (hbad : exposureRate s bad > mx)
    (hgood : ∃ g ∈ cands, ¬ exposureRate s g > mx) :
    (selectNextItem s uid cands mx r).2 ≠ some bad := by
  obtain ⟨g, hg, hgrate⟩ := hgood
  intro h
  unfold selectNextItem at h
  have hne : ¬ cands.isEmpty := by
    rw [List.isEmpty_iff]
    exact List.ne_nil_of_mem hmem
  rw [if_neg hne] at h
  simp only at h
  have hrate2 : ∀ j, exposureRate (ensureItemsFold (ensureUser s uid) cands) j
      = exposureRate s j := by
    intro j
    rw [exposureRate_ensureItemsFold, exposureRate_ensureUser]
  have hitem2 : ∀ j, itemD (ensureItemsFold (ensureUser s uid) cands) j = itemD s j := by
    intro j
    rw [itemD_ensureItemsFold, itemD_ensureUser]
  have hbadpos : 0 < (itemD s bad).exposure_count := by
    rcases Nat.eq_zero_or_pos (itemD s bad).exposure_count with h0 | hpos
    · exfalso
      unfold exposureRate at hbad
      rw [h0] at hbad
      simp only [Nat.cast_zero, zero_div] at hbad
      linarith
    · exact hpos
  split at h
  · rename_i hempty
    exact selectItemScores_has_good _ _ cands mx g hg
      (by rw [hrate2]; exact hgrate) (by rwa [List.isEmpty_iff] at hempty)
  · simp only at h
    rw [Option.map_eq_some'] at h
    obtain ⟨q, hq, hq2⟩ := h
    have hmemq : q ∈ (selectItemScores (ensureItemsFold (ensureUser s uid) cands)
        (userD (ensureItemsFold (ensureUser s uid) cands) uid) cands mx).mergeSort
          scorePairGE := by
      obtain ⟨hlt, hget⟩ := List.getElem?_eq_some_iff.mp hq
      rw [← hget]
      exact List.getElem_mem hlt
    rw [List.mem_mergeSort] at hmemq
    exact selectItemScores_not_skipped _ _ cands mx bad
      ⟨by rw [hitem2]; exact hbadpos, by rw [hrate2]; exact hbad⟩ q hmemq hq2

/-- An engine holding an over-exposed item ibad (rate 5) and a never-exposed
item igood (rate 0), with no history. -/
def sC4 : EngineState :=
  ⟨[], [("ibad", ⟨"ibad", 0, 1, 1500, [], 5⟩), ("igood", defaultItem "igood" [])],
    [], defaultBktParams, 32⟩

/-- C4 witness: with max_exposure 0.3, candidates [ibad, igood], ibad at
exposure rate 5 and igood at rate 0, ibad is not selected at RNG value 0. -/
theorem c4_overexposed_never_selected_witness :
    (selectNextItem sC4 "u1" ["ibad", "igood"] (3/10) 0).2 ≠ some "ibad" := by
  refine c4_overexposed_never_selected sC4 "u1" "ibad" ["ibad", "igood"] (3/10) 0
    (by norm_num) (by simp) ?_ ⟨"igood", by simp, ?_⟩
  · unfold exposureRate itemD sC4
    simp only [List.lookup_cons]
    norm_num
  · unfold exposureRate itemD sC4
    simp only [List.lookup_cons, String.reduceBEq]
    norm_num [defaultItem]

/-- C3: when the user's history holds fewer than 3 attempts once the current
one is recorded, process_attempt leaves theta and its standard error
unchanged: the EAP re-estimation is gated on at least 3 responses in the
most-recent-10 window. -/
theorem c3_ability_unchanged_below_three (s : EngineState) (att : AttemptRecord)
    (h : ((s.attempt_history ++ [att]).filter
        (fun a => a.user_id == att.user_id)).length < 3) :
    (userD (processAttempt s att).1 att.user_id).theta = (userD s att.user_id).theta
      ∧ (userD (processAttempt s att).1 att.user_id).theta_se
        = (userD s att.user_id).theta_se := by
  unfold processAttempt
  simp only
  set s1 := ensureUser s att.user_id with hs1
  set s2 := ensureItem s1 att.item_id [] with hs2
  have husk : s2.user_skills = s1.user_skills := (ensureItem_user_skills s1 att.item_id []).1
  have hlook : List.lookup att.user_id s2.user_skills = some (userD s att.user_id) := by
    rw [husk, hs1]
    exact ensureUser_user_skills_lookup s att.user_id
  have hsome : (List.lookup att.user_id s2.user_skills).isSome := by rw [hlook]; rfl
  have hhist : s2.attempt_history = s.attempt_history := by
    rw [hs2, (ensureItem_user_skills s1 att.item_id []).2.1, hs1,
      (ensureUser_fields s att.user_id).2.1]
  have hlen : ¬ 3 ≤ (recentResponses s2 (s2.attempt_history ++ [att]) att.user_id).length := by
    rw [Nat.not_le]
    unfold recentResponses
    simp only [List.length_drop]
    have hle : (((s2.attempt_history ++ [att]).filter
        (fun a => a.user_id == att.user_id)).map (fun a =>
          ((itemD s2 a.item_id).discrimination, (itemD s2 a.item_id).difficulty,
            a.binary_score))).length
        ≤ ((s2.attempt_history ++ [att]).filter (fun a => a.user_id == att.user_id)).length := by
      rw [List.length_map]
    have hfl : ((s2.attempt_history ++ [att]).filter
        (fun a => a.user_id == att.user_id)).length < 3 := by
      rw [hhist]
      exact h
    omega
  have huser : userD s2 att.user_id = userD s att.user_id := by
    rw [hs2, userD_ensureItem, hs1, userD_ensureUser]
  unfold userD
  simp only [lookup_setAssoc_self _ _ _ hsome, Option.getD_some]
  rw [if_neg hlen]
  constructor
  · rw [(updateBktMastery_fields _ _ _ _).1, (updateEloRatings_user_fields _ _ _ _).1]
    show (userD s2 att.user_id).theta = _
    rw [huser]
    rfl
  · rw [(updateBktMastery_fields _ _ _ _).2.1, (updateEloRatings_user_fields _ _ _ _).2.1]
    show (userD s2 att.user_id).theta_se = _
    rw [huser]
    rfl

/-- C3 witness: the first recorded attempt of user u1 (history length 1 < 3)
leaves theta at 0 and theta_se at 1, the defaults it started from. -/
theorem c3_ability_unchanged_below_three_witness :
    (userD (processAttempt initialEngine attEx).1 "u1").theta
        = (userD initialEngine "u1").theta
      ∧ (userD (processAttempt initialEngine attEx).1 "u1").theta_se
        = (userD initialEngine "u1").theta_se :=
  c3_ability_unchanged_below_three initialEngine attEx (by decide)

/-! ## C6: difficulty bounds -/

theorem adaptDifficulty_bounds (d : DifficultyState) (p : PerformanceMetrics)
    (h1 : 0.05 ≤ d.current_difficulty) (h2 : d.current_difficulty ≤ 0.95) :
    0.05 ≤ (adaptDifficulty d p).1.current_difficulty
      ∧ (adaptDifficulty d p).1.current_difficulty ≤ 0.95 := by
  unfold adaptDifficulty
  simp only
  split
  · exact ⟨le_max_left _ _, max_le (by norm_num) (min_le_left _ _)⟩
  · exact ⟨h1, h2⟩

theorem adaptDifficulty_foldl_bounds (ms : List PerformanceMetrics) :
    ∀ d : DifficultyState, 0.05 ≤ d.current_difficulty → d.current_difficulty ≤ 0.95 →
      0.05 ≤ (ms.foldl (fun st q => (adaptDifficulty st q).1) d).current_difficulty
        ∧ (ms.foldl (fun st q => (adaptDifficulty st q).1) d).current_difficulty ≤ 0.95 := by
  induction ms with
  | nil => exact fun d h1 h2 => ⟨h1, h2⟩
  | cons q t ih =>
    intro d h1 h2
    simp only [List.foldl_cons]
    obtain ⟨hh1, hh2⟩ := adaptDifficulty_bounds d q h1 h2
    exact ih _ hh1 hh2

/-- C6: starting inside [0.05, 0.95], adapt_difficulty keeps
current_difficulty inside [0.05, 0.95] after one call and after any sequence
of calls (each applied adjustment is followed by the clip), so repeated
extreme windows can never push it past 0.95 or below 0.05. -/
theorem c6_difficulty_stays_bounded (d : DifficultyState) (p : PerformanceMetrics)
    (ms : List PerformanceMetrics)
    (h1 : 0.05 ≤ d.current_difficulty) (h2 : d.current_difficulty ≤ 0.95) :
    (0.05 ≤ (adaptDifficulty d p).1.current_difficulty
        ∧ (adaptDifficulty d p).1.current_difficulty ≤ 0.95)
      ∧ (0.05 ≤ (ms.foldl (fun st q => (adaptDifficulty st q).1) d).current_difficulty
        ∧ (ms.foldl (fun st q => (adaptDifficulty st q).1) d).current_difficulty ≤ 0.95) :=
  ⟨adaptDifficulty_bounds d p h1 h2, adaptDifficulty_foldl_bounds ms d h1 h2⟩

/-- The PerformanceMetrics calculate_performance_metrics returns when no
submissions exist, used as a concrete witness input. -/
def perfEx : PerformanceMetrics := ⟨0.5, 1, 0.5, 0.5, 0, 0.5, 0.5, 0.5⟩

/-- C6 witness: the fresh difficulty state (0.3) stays inside the bounds
after one adaptation cycle and after a further sequence of fifty. -/
theorem c6_difficulty_stays_bounded_witness :
    (0.05 ≤ (adaptDifficulty (initialDifficultyState "u1") perfEx).1.current_difficulty
        ∧ (adaptDifficulty (initialDifficultyState "u1") perfEx).1.current_difficulty ≤ 0.95)
      ∧ (0.05 ≤ ((List.replicate 50 perfEx).foldl (fun st q => (adaptDifficulty st q).1)
            (initialDifficultyState "u1")).current_difficulty
        ∧ ((List.replicate 50 perfEx).foldl (fun st q => (adaptDifficulty st q).1)
            (initialDifficultyState "u1")).current_difficulty ≤ 0.95) :=
  c6_difficulty_stays_bounded (initialDifficultyState "u1") perfEx
    (List.replicate 50 perfEx) (by norm_num [initialDifficultyState])
    (by norm_num [initialDifficultyState])

/-! ## C1: the profile bounds invariant -/

/-- The bounds invariant of the spec's data model for one user profile. -/
def UserWellFormed (u : UserSkill) : Prop :=
  0 ≤ u.theta_se ∧ 800 ≤ u.elo_rating ∧ u.elo_rating ≤ 2400
    ∧ ∀ q ∈ u.concept_mastery, 0.01 ≤ q.2 ∧ q.2 ≤ 0.99

theorem bktUpdate_bounds (p : BktParams) (mastery : ℝ) (correct : Bool) :
    0.01 ≤ bktUpdate p mastery correct ∧ bktUpdate p mastery correct ≤ 0.99 := by
  unfold bktUpdate
  exact ⟨le_max_left _ _, max_le (by norm_num) (min_le_left _ _)⟩

theorem setMastery_mem (m : List (String × ℝ)) (c : String) (v : ℝ) :
    ∀ q ∈ setMastery m c v, q ∈ m ∨ q.2 = v := by
  intro q hq
  unfold setMastery at hq
  split at hq
  · unfold setAssoc at hq
    rw [List.mem_map] at hq
    obtain ⟨q0, hq0, hfq⟩ := hq
    by_cases hc : q0.1 = c
    · right
      rw [← hfq]
      simp [hc]
    · left
      rw [← hfq]
      simp only [if_neg hc]
      exact hq0
  · rw [List.mem_append] at hq
    rcases hq with hh | hh
    · exact Or.inl hh
    · right
      simp only [List.mem_singleton] at hh
      rw [hh]

theorem updateBktMastery_bounds (p : BktParams) (concepts : List String) (correct : Bool)
    (u : UserSkill) (h : ∀ q ∈ u.concept_mastery, 0.01 ≤ q.2 ∧ q.2 ≤ 0.99) :
    ∀ q ∈ (updateBktMastery p u concepts correct).concept_mastery,
      0.01 ≤ q.2 ∧ q.2 ≤ 0.99 := by
  unfold updateBktMastery
  simp only
  suffices hgen : ∀ (cs : List String) (m : List (String × ℝ)),
      (∀ q ∈ m, 0.01 ≤ q.2 ∧ q.2 ≤ 0.99) →
      ∀ q ∈ cs.foldl
        (fun m c => setMastery m c (bktUpdate p ((List.lookup c m).getD 0.2) correct)) m,
        0.01 ≤ q.2 ∧ q.2 ≤ 0.99 by
    exact hgen concepts u.concept_mastery h
  intro cs
  induction cs with
  | nil => exact fun m hm => hm
  | cons c t ih =>
    intro m hm
    simp only [List.foldl_cons]
    refine ih _ ?_
    intro q hq
    rcases setMastery_mem _ _ _ q hq with hh | hh
    · exact hm q hh
    · rw [hh]
      exact bktUpdate_bounds p _ correct

theorem updateThetaEap_se_nonneg (u : UserSkill) (responses : List (ℝ × ℝ × ℕ)) :
    0 ≤ (updateThetaEap u responses).theta_se :=
  Real.sqrt_nonneg _

/-- C1: process_attempt preserves the bounds invariant of the attempted
user's profile: after the call theta_se ≥ 0, the Elo rating lies in
[800, 2400], and every stored concept mastery lies in [0.01, 0.99]. -/
theorem c1_process_attempt_bounds_invariant (s : EngineState) (att : AttemptRecord)
    (h : UserWellFormed (userD s att.user_id)) :
    UserWellFormed (userD (processAttempt s att).1 att.user_id) := by
  unfold processAttempt
  simp only
  set s1 := ensureUser s att.user_id with hs1
  set s2 := ensureItem s1 att.item_id [] with hs2
  have husk : s2.user_skills = s1.user_skills := (ensureItem_user_skills s1 att.item_id []).1
  have hlook : List.lookup att.user_id s2.user_skills = some (userD s att.user_id) := by
    rw [husk, hs1]
    exact ensureUser_user_skills_lookup s att.user_id
  have hsome : (List.lookup att.user_id s2.user_skills).isSome := by rw [hlook]; rfl
  have huser : userD s2 att.user_id = userD s att.user_id := by
    rw [hs2, userD_ensureItem, hs1, userD_ensureUser]
  unfold userD
  simp only [lookup_setAssoc_self _ _ _ hsome, Option.getD_some]
  refine ⟨?_, ?_, ?_, ?_⟩
  · rw [(updateBktMastery_fields _ _ _ _).2.1, (updateEloRatings_user_fields _ _ _ _).2.1]
    split
    · exact updateThetaEap_se_nonneg _ _
    · show 0 ≤ (userD s2 att.user_id).theta_se
      rw [huser]
      exact h.1
  · rw [(updateBktMastery_fields _ _ _ _).2.2]
    exact (updateEloRatings_bounds _ _ _ _).1
  · rw [(updateBktMastery_fields _ _ _ _).2.2]
    exact (updateEloRatings_bounds _ _ _ _).2
  · refine updateBktMastery_bounds _ _ _ _ ?_
    rw [(updateEloRatings_user_fields _ _ _ _).2.2]
    split
    · rw [(updateThetaEap_fields _ _).1]
      show ∀ q ∈ (userD s2 att.user_id).concept_mastery, 0.01 ≤ q.2 ∧ q.2 ≤ 0.99
      rw [huser]
      exact h.2.2.2
    · show ∀ q ∈ (userD s2 att.user_id).concept_mastery, 0.01 ≤ q.2 ∧ q.2 ≤ 0.99
      rw [huser]
      exact h.2.2.2

theorem defaultUser_wellFormed (uid : String) : UserWellFormed (defaultUser uid) := by
  refine ⟨by norm_num [defaultUser], by norm_num [defaultUser], by norm_num [defaultUser], ?_⟩
  intro q hq
  simp [defaultUser] at hq

/-- C1 witness: processing the first attempt of user u1 on a fresh engine
yields a profile satisfying the bounds invariant. -/
theorem c1_process_attempt_bounds_invariant_witness :
    UserWellFormed (userD (processAttempt initialEngine attEx).1 "u1") :=
  c1_process_attempt_bounds_invariant initialEngine attEx (defaultUser_wellFormed "u1")

/-! ## C7: impact scores and gap ordering -/

/-- The impact formula as the claim states it:
0.4·severity + min(0.4, 0.2·#blocking) + 0.2·(9 − level)/8. -/
def claimedImpactFormula (sev : ℚ) (nBlocking : ℕ) (level : ℕ) : ℚ :=
  0.4 * sev + min 0.4 (0.2 * (nBlocking : ℚ)) + 0.2 * ((9 - (level : ℚ)) / 8)

theorem calculateImpactScore_formula (c : String) (sev : ℚ) (bl : List String) :
    calculateImpactScore c sev bl
      = min 1 (claimedImpactFormula sev bl.length (conceptLevel c)) := by
  unfold calculateImpactScore claimedImpactFormula
  rw [mul_comm ((bl.length : ℚ)) (0.2 : ℚ)]
  ring_nf

/-- What _identify_missing_prerequisites hard-codes into each gap it emits. -/
def missingGapFacts (g : SkillGap) : Prop :=
  g.gap_severity = 1 ∧ g.current_level = 0 ∧ g.impact_score = 0.8

theorem mem_identifyMissingPrerequisites (lvls : List (String × SkillLevel))
    (g : SkillGap) (hg : g ∈ identifyMissingPrerequisites lvls) : missingGapFacts g := by
  unfold identifyMissingPrerequisites at hg
  suffices hout : ∀ (cats : List (String × ConceptCategory)) (acc : List SkillGap),
      (∀ h ∈ acc, missingGapFacts h) →
      ∀ h ∈ cats.foldl (fun acc cat =>
        if cat.2.concepts.any (fun c => (lvls.lookup c).isSome) then
          acc ++ cat.2.prerequisites.foldl (fun acc2 prereqCat =>
            acc2 ++ ((((conceptHierarchy.lookup prereqCat).map ConceptCategory.concepts).getD
                []).filter (fun pc => (lvls.lookup pc).isNone)).map (fun pc =>
              { concept := pc
                gap_severity := 1
                current_level := 0
                target_level := analyzerMasteryThreshold
                blocking_dependencies := cat.2.concepts
                prerequisite_gaps := []
                evidence := ["missing_prerequisite"]
                impact_score := 0.8
                difficulty_estimation := 0.5
                time_investment_needed := estimateTimeInvestment pc 1 0.5 })) []
        else acc) acc, missingGapFacts h by
    exact hout conceptHierarchy [] (by intro h hh; exact absurd hh (List.not_mem_nil _)) g hg
  have hinner : ∀ (cat : String × ConceptCategory) (prereqs : List String)
      (acc2 : List SkillGap), (∀ h ∈ acc2, missingGapFacts h) →
      ∀ h ∈ prereqs.foldl (fun acc2 prereqCat =>
        acc2 ++ ((((conceptHierarchy.lookup prereqCat).map ConceptCategory.concepts).getD
            []).filter (fun pc => (lvls.lookup pc).isNone)).map (fun pc =>
          { concept := pc
            gap_severity := 1
            current_level := 0
            target_level := analyzerMasteryThreshold
            blocking_dependencies := cat.2.concepts
            prerequisite_gaps := []
            evidence := ["missing_prerequisite"]
            impact_score := 0.8
            difficulty_estimation := 0.5
            time_investment_needed := estimateTimeInvestment pc 1 0.5 })) acc2,
        missingGapFacts h := by
    intro cat prereqs
    induction prereqs with
    | nil => exact fun acc2 hacc => hacc
    | cons pc t ih =>
      intro acc2 hacc
      simp only [List.foldl_cons]
      refine ih _ ?_
      intro h hh
      rw [List.mem_append] at hh
      rcases hh with h1 | h1
      · exact hacc h h1
      · rw [List.mem_map] at h1
        obtain ⟨x, _, hx⟩ := h1
        rw [← hx]
        exact ⟨rfl, rfl, rfl⟩
  intro cats
  induction cats with
  | nil => exact fun acc hacc => hacc
  | cons cat t ih =>
    intro acc hacc
    simp only [List.foldl_cons]
    refine ih _ ?_
    split
    · intro h hh
      rw [List.mem_append] at hh
      rcases hh with h1 | h1
      · exact hacc h h1
      · exact hinner cat cat.2.prerequisites []
          (by intro x hx; exact absurd hx (List.not_mem_nil _)) h h1
    · exact hacc

theorem mem_analyzedGaps (lvls : List (String × SkillLevel)) :
    ∀ (l : List (String × SkillLevel)) (acc : List SkillGap) (g : SkillGap),
      g ∈ l.foldl (fun acc q =>
        if q.2.mastery_score < analyzerMasteryThreshold then
          if analyzerGapSeverityThreshold ≤ 1 - q.2.mastery_score then
            acc ++ [analyzeSkillGap q.1 q.2 lvls]
          else acc
        else acc) acc →
      g ∈ acc ∨ ∃ q : String × SkillLevel, g = analyzeSkillGap q.1 q.2 lvls := by
  intro l
  induction l with
  | nil => exact fun acc g hg => Or.inl hg
  | cons q t ih =>
    intro acc g hg
    simp only [List.foldl_cons] at hg
    rcases ih _ g hg with hmem | hex
    · split at hmem
      · split at hmem
        · rw [List.mem_append] at hmem
          rcases hmem with h1 | h1
          · exact Or.inl h1
          · simp only [List.mem_singleton] at h1
            exact Or.inr ⟨q, h1⟩
        · exact Or.inl hmem
      · exact Or.inl hmem
    · exact Or.inr hex

/-- A gap's impact score as the code assigns it: the capped claim formula for
analyzed gaps, or the hard-coded 0.8 of a missing-prerequisite gap. -/
def gapImpactOk (g : SkillGap) : Bool :=
  decide (g.impact_score
      = min 1 (claimedImpactFormula g.gap_severity g.blocking_dependencies.length
          (conceptLevel g.concept))
    ∨ (g.gap_severity = 1 ∧ g.current_level = 0 ∧ g.impact_score = 0.8))

theorem analyzeSkillGap_impact (c : String) (sk : SkillLevel)
    (lvls : List (String × SkillLevel)) :
    (analyzeSkillGap c sk lvls).impact_score
      = min 1 (claimedImpactFormula (analyzeSkillGap c sk lvls).gap_severity
          (analyzeSkillGap c sk lvls).blocking_dependencies.length
          (conceptLevel (analyzeSkillGap c sk lvls).concept)) := by
  unfold analyzeSkillGap
  simp only
  exact calculateImpactScore_formula c (1 - sk.mastery_score) _

theorem gapImpactGE_trans (a b c : SkillGap) (h1 : gapImpactGE a b = true)
    (h2 : gapImpactGE b c = true) : gapImpactGE a c = true := by
  unfold gapImpactGE at h1 h2 ⊢
  rw [decide_eq_true_eq] at h1 h2 ⊢
  exact le_trans h2 h1

theorem gapImpactGE_total (a b : SkillGap) : (gapImpactGE a b || gapImpactGE b a) = true := by
  unfold gapImpactGE
  rcases le_total a.impact_score b.impact_score with h | h
  · simp [h]
  · simp [h]

/-- A user who attempted only 'conditionals', at mastery 0.2. -/
def exSkillConditionals : SkillLevel := ⟨"conditionals", 0.2, (0, 0), 3, 0, 0.5⟩

def exSkillLevels : List (String × SkillLevel) := [("conditionals", exSkillConditionals)]

/-- The missing-prerequisite gap for 'variables' that identify_skill_gaps
emits on exSkillLevels. -/
def gapVariablesEx : SkillGap :=
  { concept := "variables"
    gap_severity := 1
    current_level := 0
    target_level := analyzerMasteryThreshold
    blocking_dependencies := ["conditionals", "loops", "boolean_logic"]
    prerequisite_gaps := []
    evidence := ["missing_prerequisite"]
    impact_score := 0.8
    difficulty_estimation := 0.5
    time_investment_needed := estimateTimeInvestment "variables" 1 0.5 }

theorem gapVariablesEx_mem : gapVariablesEx ∈ identifySkillGaps exSkillLevels := by
  unfold identifySkillGaps
  rw [if_neg (by decide)]
  simp only
  rw [List.mem_mergeSort, List.mem_append]
  right
  unfold identifyMissingPrerequisites
  simp only [conceptHierarchy, List.foldl_cons, List.foldl_nil]
  simp [exSkillLevels, List.lookup_cons, gapVariablesEx]

/-- C7 counterexample: on a user who attempted only 'conditionals' (mastery
0.2), identify_skill_gaps reports the missing prerequisite 'variables' with
impact_score 0.8, while the claimed formula — severity 1.0, 3 blocking
dependents, hierarchy level 1 — evaluates to 1.0; the claimed equality fails
on this returned gap. -/
theorem c7_counterexample :
    ∃ g ∈ identifySkillGaps exSkillLevels,
      g.impact_score = 0.8
        ∧ claimedImpactFormula g.gap_severity g.blocking_dependencies.length
            (conceptLevel g.concept) = 1
        ∧ g.impact_score ≠ claimedImpactFormula g.gap_severity
            g.blocking_dependencies.length (conceptLevel g.concept) := by
  refine ⟨gapVariablesEx, gapVariablesEx_mem, rfl, ?_, ?_⟩
  · have hl : conceptLevel "variables" = 1 := by decide
    show claimedImpactFormula 1 3 (conceptLevel "variables") = 1
    rw [hl]
    norm_num [claimedImpactFormula, min_def]
  · have hl : conceptLevel "variables" = 1 := by decide
    show (0.8 : ℚ) ≠ claimedImpactFormula 1 3 (conceptLevel "variables")
    rw [hl]
    norm_num [claimedImpactFormula, min_def]

/-- C7 amended: every gap identify_skill_gaps returns either carries
impact_score = min(1, 0.4·severity + min(0.4, 0.2·#blocking) +
0.2·(9 − level)/8) (gaps analyzed from assessed concepts) or is a
missing-prerequisite gap with severity 1.0, current level 0 and the
hard-coded impact_score 0.8; the returned list is sorted by impact_score
descending. -/
theorem c7_amended_impact_scores (lvls : List (String × SkillLevel)) :
    ((identifySkillGaps lvls).all gapImpactOk = true)
      ∧ List.Pairwise (fun a b => b.impact_score ≤ a.impact_score)
          (identifySkillGaps lvls) := by
  constructor
  · rw [List.all_eq_true]
    intro g hg
    unfold identifySkillGaps at hg
    split at hg
    · exact absurd hg (List.not_mem_nil _)
    · simp only at hg
      rw [List.mem_mergeSort, List.mem_append] at hg
      unfold gapImpactOk
      rw [decide_eq_true_eq]
      rcases hg with h1 | h1
      · rcases mem_analyzedGaps lvls lvls [] g h1 with h2 | h2
        · exact absurd h2 (List.not_mem_nil _)
        · obtain ⟨q, hq⟩ := h2
          left
          rw [hq]
          exact analyzeSkillGap_impact q.1 q.2 lvls
      · exact Or.inr (mem_identifyMissingPrerequisites lvls g h1)
  · unfold identifySkillGaps
    split
    · exact List.Pairwise.nil
    · simp only
      have hs := List.sorted_mergeSort gapImpactGE_trans gapImpactGE_total
        ((lvls.foldl (fun acc q =>
          if q.2.mastery_score < analyzerMasteryThreshold then
            if analyzerGapSeverityThreshold ≤ 1 - q.2.mastery_score then
              acc ++ [analyzeSkillGap q.1 q.2 lvls]
            else acc
          else acc) []) ++ identifyMissingPrerequisites lvls)
      refine hs.imp ?_
      intro a b hab
      unfold gapImpactGE at hab
      rwa [decide_eq_true_eq] at hab
